import Mathlib

/-!
Shallow embedding of the defect-insights pipeline
(`ml-service/insights_generator.py` and `ml-service/main.py`).

Modelling conventions:
* Timestamps are integers (seconds since an epoch); `datetime.fromisoformat`
  on the ISO-8601 fields of the data model is total, and only differences of
  timestamps matter to the metrics.  Elapsed hours are rationals
  (`total_seconds() / 3600`).
* Python floats are modelled by `ℚ` (the metric arithmetic here is
  division and averaging of exact inputs).
* An audit event's `newValue` JSON payload is observed by the code only
  through the parse pipeline `json.loads(new_value).get("status")`, guarded
  by `if new_value:` and a `try/except` that skips the event.  We model that
  observable as `newStatus : Option String`: `some s` when `newValue` is
  truthy, parses, and carries a `status` key with value `s`; `none` in every
  other case (absent/empty payload, parse failure, missing key) — all of
  which the code treats identically by skipping the event.
* Network calls and the scikit-learn vectorizer/K-Means/silhouette calls are
  modelled as explicit oracle parameters: a fallible call is a value of
  `Except String α` (an `Except.error` is a raised exception), a per-defect
  fetch is a function from defect id to such a value.  The surrounding
  control flow — guards, retry, `try/except`, loop-with-`continue` — is
  translated faithfully from the source.
-/

/-- A defect record, with the fields of the data model that the pipeline
reads.  `project` is already stringified (the code uses the embedded
object's `name` when present, else `str(x)`). -/
structure Defect where
  id : String
  status : String
  priority : String
  project : String
  title : String
  description : String
  createdAt : Int
  updatedAt : Int
  deriving DecidableEq, Repr

/-- An audit event.  `newStatus` is the parsed status carried by the
`newValue` payload (see the module docstring); `createdAt` is the event
timestamp. -/
structure AuditEvent where
  defectId : String
  type : String
  newStatus : Option String
  createdAt : Int
  deriving DecidableEq, Repr

namespace InsightsGenerator

/-! ### `_calculate_reopen_rate` (insights_generator.py lines 67-92) -/

/-- Defect ids collected from audit events: an event contributes its
`defectId` when it is a `STATUS_CHANGE` whose parsed new status is
`REOPENED` (the first loop of `_calculate_reopen_rate`). -/
def eventReopenedIds (audit_events : List AuditEvent) : List String :=
  (audit_events.filter fun e =>
    e.type == "STATUS_CHANGE" && e.newStatus == some "REOPENED").map
    (fun e => e.defectId)

/-- The Python `set` `reopened_defects`: ids from REOPENED status-change
events unioned with ids of defects whose current status is `REOPENED`. -/
def reopened_defects (defects : List Defect) (audit_events : List AuditEvent) :
    Finset String :=
  (eventReopenedIds audit_events).toFinset ∪
    ((defects.filter fun d => d.status == "REOPENED").map (fun d => d.id)).toFinset

/-- `_calculate_reopen_rate`: `0.0` on the empty defect list, else
`len(reopened_defects) / len(defects) * 100`. -/
def calculate_reopen_rate (defects : List Defect)
    (audit_events : List AuditEvent) : ℚ :=
  if defects = [] then 0
  else ((reopened_defects defects audit_events).card : ℚ) / defects.length * 100

/-! ### `_calculate_mean_time_to_fix` (insights_generator.py lines 94-130) -/

/-- The per-event test of the resolution-search loop: the event belongs to
this defect, is a `STATUS_CHANGE`, and its parsed new status is `RESOLVED`
or `CLOSED`. -/
def isResolutionEvent (defectId : String) (e : AuditEvent) : Bool :=
  e.defectId == defectId && e.type == "STATUS_CHANGE" &&
    (e.newStatus == some "RESOLVED" || e.newStatus == some "CLOSED")

/-- The `resolved_at` computed for one defect: the first event (in the order
of `audit_events`) passing `isResolutionEvent` gives its `createdAt`
(the loop breaks there); otherwise, if the defect's current status is
`RESOLVED` or `CLOSED`, fall back to `updatedAt`; otherwise `None`. -/
def resolved_at (audit_events : List AuditEvent) (d : Defect) : Option Int :=
  match audit_events.find? (isResolutionEvent d.id) with
  | some e => some e.createdAt
  | none =>
      if d.status = "RESOLVED" ∨ d.status = "CLOSED" then some d.updatedAt
      else none

/-- One defect's contribution to `fix_times`: elapsed hours
`(resolved_at - created_at) / 3600`, kept only when strictly positive. -/
def fixContribution (audit_events : List AuditEvent) (d : Defect) : Option ℚ :=
  match resolved_at audit_events d with
  | some r =>
      let time_diff : ℚ := ((r : ℚ) - (d.createdAt : ℚ)) / 3600
      if time_diff > 0 then some time_diff else none
  | none => none

/-- The `fix_times` list accumulated over the defect loop. -/
def fix_times (defects : List Defect) (audit_events : List AuditEvent) :
    List ℚ :=
  defects.filterMap (fixContribution audit_events)

/-- `_calculate_mean_time_to_fix`: `np.mean(fix_times)` when non-empty
(arithmetic mean), else `0.0`. -/
def calculate_mean_time_to_fix (defects : List Defect)
    (audit_events : List AuditEvent) : ℚ :=
  if fix_times defects audit_events = [] then 0
  else (fix_times defects audit_events).sum /
    ((fix_times defects audit_events).length : ℚ)

/-! ### `_calculate_distributions` (insights_generator.py lines 132-155) -/

/-- `pandas.Series.value_counts().to_dict()` on a column of (non-null)
values: each distinct value paired with its number of occurrences.
(`value_counts` orders the table by frequency; the table is consumed as a
dict, so we keep first-occurrence order of the keys.) -/
def value_counts (l : List String) : List (String × Nat) :=
  l.dedup.map fun k => (k, l.count k)

/-- `_calculate_distributions`: three frequency tables over `status`,
`priority` and the stringified `project`; three empty tables on the empty
defect list. -/
def calculate_distributions (defects : List Defect) :
    List (String × Nat) × List (String × Nat) × List (String × Nat) :=
  if defects = [] then ([], [], [])
  else
    (value_counts (defects.map fun d => d.status),
     value_counts (defects.map fun d => d.priority),
     value_counts (defects.map fun d => d.project))

/-! ### `_cluster_descriptions` (insights_generator.py lines 157-235) -/

/-- One entry of the `clusters` list built per cluster index. -/
structure ClusterInfo where
  cluster_id : Nat
  size : Nat
  top_terms : List String
  defect_ids : List String
  deriving DecidableEq, Repr

/-- The clustering result dict `{clusters, silhouette_score, n_clusters}`. -/
structure ClusteringResult where
  clusters : List ClusterInfo
  silhouette_score : ℚ
  n_clusters : Nat
  deriving DecidableEq, Repr

/-- The empty clustering result returned on degenerate input. -/
def emptyClustering : ClusteringResult :=
  { clusters := [], silhouette_score := 0, n_clusters := 0 }

/-- What a successful `TfidfVectorizer.fit_transform` yields: the dense view
of the TF-IDF matrix (one row per document) together with
`get_feature_names_out()` (one name per column). -/
structure VectorizedCorpus where
  tfidf_matrix : List (List ℚ)
  feature_names : List String
  deriving Repr

/-- Oracle bundle for the scikit-learn calls made by `_cluster_descriptions`.
`vec1` is the strict vectorizer (`max_features=100`, English stop-words,
unigram+bigram, `min_df=2`); `vec2` the relaxed retry (`max_features=50`,
English stop-words, `min_df=1`).  `kmeansFit` is
`KMeans(n, random_state=42, n_init=10).fit_predict` paired with the fitted
`.cluster_centers_`; `silhouette` is `sklearn.metrics.silhouette_score`.
Every call is fallible — an `Except.error` is a raised exception — since
none of them is wrapped by the code beyond the one `try/except ValueError`
around the first vectorization; in particular `silhouette_score` raises a
`ValueError` whenever the number of distinct labels is not strictly between
1 and the number of samples, and the code's own guard only excludes the
single-label case. -/
structure MLBackend where
  vec1 : List String → Except String VectorizedCorpus
  vec2 : List String → Except String VectorizedCorpus
  kmeansFit : Nat → List (List ℚ) →
    Except String (List Nat × List (List ℚ))
  silhouette : List (List ℚ) → List Nat → Except String ℚ

/-- `numpy.argsort` on a weight vector: the column indices ordered by
ascending weight (ties in an arbitrary but fixed order). -/
def argsortAsc (v : List ℚ) : List Nat :=
  (List.range v.length).mergeSort fun i j => decide (v.getD i 0 ≤ v.getD j 0)

/-- The `descriptions` corpus: one document per defect, the concatenation
of its title and description separated by a space. -/
def documents (defects : List Defect) : List String :=
  defects.map fun d => d.title ++ " " ++ d.description

/-- The Python blank test `not d.strip()`: a string is blank exactly when
every character is whitespace (stripping leading and trailing whitespace
then leaves the empty, falsy string). -/
def isBlank (s : String) : Bool :=
  s.data.all fun c => c.isWhitespace

/-- `_cluster_descriptions`.  Control flow translated from the source:
two early guards returning the empty result; TF-IDF vectorization with a
`try/except ValueError` retry whose own failure propagates; the
`actual_n_clusters < 2` fallback; K-Means, whose exception propagates;
silhouette only when more than one distinct label occurred, its exception
propagating as well; per-cluster info with top-10 centroid terms. -/
def cluster_descriptions (B : MLBackend) (defects : List Defect)
    (n_clusters : Nat := 5) : Except String ClusteringResult :=
  if defects = [] ∨ defects.length < n_clusters then .ok emptyClustering else
  let descriptions := documents defects
  if descriptions = [] ∨ descriptions.all (fun d => isBlank d) then
    .ok emptyClustering
  else
    let fitted : Except String VectorizedCorpus :=
      match B.vec1 descriptions with
      | .ok v => .ok v
      | .error _ => B.vec2 descriptions
    match fitted with
    | .error e => .error e
    | .ok v =>
      let actual_n_clusters :=
        min n_clusters (min defects.length v.tfidf_matrix.length)
      if actual_n_clusters < 2 then .ok emptyClustering else
      match B.kmeansFit actual_n_clusters v.tfidf_matrix with
      | .error e => .error e
      | .ok (cluster_labels, cluster_centers) =>
        match (if cluster_labels.dedup.length > 1 then
            B.silhouette v.tfidf_matrix cluster_labels
          else .ok 0 : Except String ℚ) with
        | .error e => .error e
        | .ok sil =>
          let clusters := (List.range actual_n_clusters).map fun i =>
            let cluster_defects :=
              ((defects.zip cluster_labels).filter fun p => p.2 == i).map
                fun p => p.1
            let cluster_center := cluster_centers.getD i []
            let top_indices := (argsortAsc cluster_center).reverse.take 10
            let top_terms :=
              top_indices.map fun idx => v.feature_names.getD idx ""
            { cluster_id := i, size := cluster_labels.count i,
              top_terms := top_terms,
              defect_ids := cluster_defects.map fun d => d.id : ClusterInfo }
          .ok { clusters := clusters, silhouette_score := sil,
                n_clusters := actual_n_clusters }

/-! ### Acquisition, report assembly, storage
(`_fetch_defects`, `_fetch_audit_events`, `generate`, `store_insights` in
insights_generator.py; the `/generate-insights` endpoint in main.py).
The primary list fetch, each per-defect fetch, and the storage POST are
oracle values/functions; `Except.error` is a raised exception. -/

/-- `_fetch_audit_events`: loop over defect ids; a per-defect fetch failure
hits the inner `except: continue` and contributes nothing; each returned
event is tagged with the id it was fetched for.  The oracle yields the
defect's `auditEvents` list (a record without that key behaves as `ok []`).
The loop body cannot otherwise fail, so the outer `except: return []` is
never taken. -/
def fetch_audit_events (fetchDefect : String → Except String (List AuditEvent))
    (defect_ids : List String) : List AuditEvent :=
  defect_ids.flatMap fun defect_id =>
    match fetchDefect defect_id with
    | .ok events => events.map fun e => { e with defectId := defect_id }
    | .error _ => []

/-- The insights report assembled by `generate` (scope metadata and the
wall-clock `generated_at` stamp are threaded through unchanged and are not
modelled). -/
structure InsightsReport where
  reopen_rate : ℚ
  mean_time_to_fix : ℚ
  distributions :
    List (String × Nat) × List (String × Nat) × List (String × Nat)
  clustering : ClusteringResult
  deriving Repr

/-- `generate`: a failed primary defect fetch propagates; an empty defect
list short-circuits to the all-zero report; otherwise audit events are
fetched per defect, the metrics computed, and clustering's exception (if
any) propagates. -/
def generate (fetchDefectsResult : Except String (List Defect))
    (fetchDefect : String → Except String (List AuditEvent))
    (B : MLBackend) : Except String InsightsReport :=
  match fetchDefectsResult with
  | .error e => .error e
  | .ok defects =>
    if defects = [] then
      .ok { reopen_rate := 0, mean_time_to_fix := 0,
            distributions := ([], [], []), clustering := emptyClustering }
    else
      let defect_ids := defects.map fun d => d.id
      let audit_events := fetch_audit_events fetchDefect defect_ids
      match cluster_descriptions B defects 5 with
      | .error e => .error e
      | .ok clustering =>
        .ok { reopen_rate := calculate_reopen_rate defects audit_events,
              mean_time_to_fix := calculate_mean_time_to_fix defects audit_events,
              distributions := calculate_distributions defects,
              clustering := clustering }

/-- `store_insights`: the POST outcome is the oracle argument; any failure
is caught by the blanket `except` (logged and dropped), so the call always
returns normally. -/
def store_insights (post : Except String Unit) : Except String Unit :=
  match post with
  | .ok _ => .ok ()
  | .error _ => .ok ()

/-- The `POST /generate-insights` handler in main.py: run `generate`, then
`store_insights`, and return the computed report; an exception from either
step would surface as the handler's HTTP 500 (`Except.error` here). -/
def generate_insights (fetchDefectsResult : Except String (List Defect))
    (fetchDefect : String → Except String (List AuditEvent))
    (B : MLBackend) (post : Except String Unit) :
    Except String InsightsReport :=
  match generate fetchDefectsResult fetchDefect B with
  | .error e => .error e
  | .ok insights =>
    match store_insights post with
    | .error e => .error e
    | .ok _ => .ok insights

/-! ### Concrete instances for counterexamples and witnesses -/

/-- A defect whose title and description consist solely of English
stop-words (non-blank, so the blank-corpus guard does not fire). -/
def stopwordDefect : Defect :=
  { id := "d1", status := "OPEN", priority := "HIGH", project := "p",
    title := "the", description := "and then", createdAt := 0, updatedAt := 0 }

/-- Five copies of the stop-word defect: enough defects to pass the
minimum-count guard. -/
def stopwordCorpusDefects : List Defect := List.replicate 5 stopwordDefect

/-- The scikit-learn behaviour on a corpus whose every token is an English
stop-word: `TfidfVectorizer.fit_transform` raises `ValueError: empty
vocabulary, perhaps the documents only contain stop words` under both
configurations the code uses (both strip English stop-words before building
the vocabulary; `min_df` only prunes further), so both oracle calls fail. -/
def emptyVocabularyBackend : MLBackend :=
  { vec1 := fun _ => .error "empty vocabulary"
    vec2 := fun _ => .error "empty vocabulary"
    kmeansFit := fun _ _ => .ok ([], [])
    silhouette := fun _ _ => .ok 0 }

/-- A backend whose strict vectorizer fails but whose relaxed retry
succeeds, with one row per document as scikit-learn guarantees. -/
def retryBackend : MLBackend :=
  { vec1 := fun _ => .error "no terms remain"
    vec2 := fun docs =>
      .ok { tfidf_matrix := docs.map fun _ => [1], feature_names := ["w"] }
    kmeansFit := fun k m =>
      .ok ((List.range m.length).map fun j => j % k,
        (List.range k).map fun _ => [1])
    silhouette := fun _ _ => .ok 0 }

/-- A backend whose strict vectorizer succeeds, with one row per document
as scikit-learn guarantees. -/
def plainBackend : MLBackend :=
  { vec1 := fun docs =>
      .ok { tfidf_matrix := docs.map fun _ => [1], feature_names := ["w"] }
    vec2 := fun _ => .error "unreached"
    kmeansFit := fun k m =>
      .ok ((List.range m.length).map fun j => j % k,
        (List.range k).map fun _ => [1])
    silhouette := fun _ _ => .ok 0 }

/-- The scikit-learn behaviour when every cluster is a singleton: K-Means on
5 samples with 5 clusters yields 5 distinct labels, which passes the
code's more-than-one-label test, and `silhouette_score` then raises
`ValueError: Number of labels is 5. Valid values are 2 to n_samples - 1`
because the distinct-label count equals the sample count. -/
def silhouetteFailBackend : MLBackend :=
  { vec1 := fun docs =>
      .ok { tfidf_matrix := docs.map fun _ => [1], feature_names := ["w"] }
    vec2 := fun _ => .error "unreached"
    kmeansFit := fun k m =>
      .ok ((List.range m.length).map fun j => j % k,
        (List.range k).map fun _ => [1])
    silhouette := fun _ _ => .error "Number of labels is 5" }

/-- A sample defect with ordinary text, for witness instantiations. -/
def sampleDefect : Defect :=
  { id := "s1", status := "RESOLVED", priority := "LOW", project := "core",
    title := "database timeout", description := "query hangs",
    createdAt := 0, updatedAt := 7200 }

/-- A resolution audit event for `sampleDefect`, two hours after creation. -/
def sampleResolutionEvent : AuditEvent :=
  { defectId := "s1", type := "STATUS_CHANGE",
    newStatus := some "RESOLVED", createdAt := 7200 }

/-- A reopen audit event for `sampleDefect`. -/
def sampleReopenEvent : AuditEvent :=
  { defectId := "s1", type := "STATUS_CHANGE",
    newStatus := some "REOPENED", createdAt := 100 }

/-- A defect whose recorded resolution time (its fallback `updatedAt`)
precedes its creation time: clock-skewed data. -/
def skewedDefect : Defect :=
  { id := "s2", status := "CLOSED", priority := "LOW", project := "core",
    title := "t", description := "", createdAt := 7200, updatedAt := 0 }

/-- Five copies of `sampleDefect`: a corpus that passes both clustering
guards. -/
def fiveSampleDefects : List Defect := List.replicate 5 sampleDefect

/-- What `plainBackend.vec1` returns on the corpus of
`fiveSampleDefects`. -/
def sampleCorpus : VectorizedCorpus :=
  { tfidf_matrix := (documents fiveSampleDefects).map fun _ => [1],
    feature_names := ["w"] }

/-- Six copies of the stop-word defect. -/
def sixStopwordDefects : List Defect := List.replicate 6 stopwordDefect

/-! ## Theorems -/

/-- Every event produced by `fetch_audit_events` is tagged with one of the
ids it was asked to fetch. -/
lemma fetch_audit_events_defectId_mem
    (fetchDefect : String → Except String (List AuditEvent))
    (defect_ids : List String) (e : AuditEvent)
    (he : e ∈ fetch_audit_events fetchDefect defect_ids) :
    e.defectId ∈ defect_ids := by
  unfold fetch_audit_events at he
  rcases List.mem_flatMap.mp he with ⟨i, hi, hmem⟩
  rcases h : fetchDefect i with msg | events
  · rw [h] at hmem
    simp at hmem
  · rw [h] at hmem
    rcases List.mem_map.mp hmem with ⟨e0, _, rfl⟩
    exact hi

/-- The reopened-defect id set is contained in the id set of the defect
list, provided every event carries an id of that list. -/
lemma reopened_defects_subset (defects : List Defect)
    (audit_events : List AuditEvent)
    (h : ∀ e ∈ audit_events, e.defectId ∈ defects.map fun d => d.id) :
    reopened_defects defects audit_events ⊆
      (defects.map fun d => d.id).toFinset := by
  intro x hx
  rcases Finset.mem_union.mp hx with hx | hx
  · rw [List.mem_toFinset] at hx
    rcases List.mem_map.mp hx with ⟨e, he, rfl⟩
    exact List.mem_toFinset.mpr (h e (List.mem_of_mem_filter he))
  · rw [List.mem_toFinset] at hx
    rcases List.mem_map.mp hx with ⟨d, hd, rfl⟩
    exact List.mem_toFinset.mpr
      (List.mem_map.mpr ⟨d, List.mem_of_mem_filter hd, rfl⟩)

/-- Claim C2: for every fetched defect set and the audit events fetched for
it, `_calculate_reopen_rate` returns a value in the interval `[0, 100]`,
and on the empty defect set it returns exactly `0.0`. -/
theorem reopen_rate_bounds (defects : List Defect)
    (fetchDefect : String → Except String (List AuditEvent)) :
    (0 ≤ calculate_reopen_rate defects
        (fetch_audit_events fetchDefect (defects.map fun d => d.id)) ∧
      calculate_reopen_rate defects
        (fetch_audit_events fetchDefect (defects.map fun d => d.id)) ≤ 100) ∧
    ∀ audit_events, calculate_reopen_rate [] audit_events = 0 := by
  constructor
  · set audit_events :=
      fetch_audit_events fetchDefect (defects.map fun d => d.id) with hev
    rcases eq_or_ne defects [] with rfl | hne
    · simp [calculate_reopen_rate]
    · have hlen : 0 < defects.length := List.length_pos.mpr hne
      have hcard : (reopened_defects defects audit_events).card ≤
          defects.length := by
        calc (reopened_defects defects audit_events).card
            ≤ (defects.map fun d => d.id).toFinset.card :=
              Finset.card_le_card (reopened_defects_subset _ _
                (fun e he => fetch_audit_events_defectId_mem _ _ e (hev ▸ he)))
          _ ≤ (defects.map fun d => d.id).length := List.toFinset_card_le _
          _ = defects.length := List.length_map _ _
      have hlenQ : (0 : ℚ) < defects.length := by exact_mod_cast hlen
      constructor
      · rw [calculate_reopen_rate, if_neg hne]
        positivity
      · rw [calculate_reopen_rate, if_neg hne]
        have hdiv : ((reopened_defects defects audit_events).card : ℚ) /
            defects.length ≤ 1 := by
          rw [div_le_one hlenQ]
          exact_mod_cast hcard
        calc ((reopened_defects defects audit_events).card : ℚ) /
              defects.length * 100
            ≤ 1 * 100 := by
              apply mul_le_mul_of_nonneg_right hdiv
              norm_num
          _ = 100 := by norm_num
  · intro audit_events
    simp [calculate_reopen_rate]

/-- Claim C3: a defect counts toward the reopen rate if any of its audit
events is a STATUS_CHANGE whose parsed new status is REOPENED, whatever its
current status; the event and current-status signals are unioned over ids
in a set, so a duplicated REOPENED event never changes the rate; and a
defect with no STATUS_CHANGE events and current status OPEN never counts. -/
theorem reopen_union_semantics (defects : List Defect)
    (audit_events : List AuditEvent) (d : Defect) (_hd : d ∈ defects) :
    ((∃ e ∈ audit_events, e.defectId = d.id ∧ e.type = "STATUS_CHANGE" ∧
        e.newStatus = some "REOPENED") →
      d.id ∈ reopened_defects defects audit_events) ∧
    (∀ e rest, calculate_reopen_rate defects (e :: e :: rest) =
      calculate_reopen_rate defects (e :: rest)) ∧
    ((∀ e ∈ audit_events, e.defectId = d.id → e.type ≠ "STATUS_CHANGE") →
      d.status = "OPEN" →
      (∀ d2 ∈ defects, d2.id = d.id → d2 = d) →
      d.id ∉ reopened_defects defects audit_events) := by
  refine ⟨?_, ?_, ?_⟩
  · rintro ⟨e, he, hid, hty, hst⟩
    apply Finset.mem_union_left
    rw [List.mem_toFinset]
    refine List.mem_map.mpr ⟨e, ?_, hid⟩
    refine List.mem_filter.mpr ⟨he, ?_⟩
    simp [hty, hst]
  · intro e rest
    have hset : reopened_defects defects (e :: e :: rest) =
        reopened_defects defects (e :: rest) := by
      unfold reopened_defects eventReopenedIds
      by_cases hp :
          (e.type == "STATUS_CHANGE" && e.newStatus == some "REOPENED") = true
      · simp [List.filter_cons, hp, Finset.insert_idem]
      · simp [List.filter_cons, hp]
    simp [calculate_reopen_rate, hset]
  · intro hev hopen huniq hmem
    rcases Finset.mem_union.mp hmem with hmem | hmem
    · rw [List.mem_toFinset] at hmem
      rcases List.mem_map.mp hmem with ⟨e, he, hid⟩
      have hf := List.mem_filter.mp he
      have hty : e.type = "STATUS_CHANGE" := by
        have h2 := hf.2
        simp only [Bool.and_eq_true, beq_iff_eq] at h2
        exact h2.1
      exact hev e hf.1 hid hty
    · rw [List.mem_toFinset] at hmem
      rcases List.mem_map.mp hmem with ⟨d2, hd2, hid⟩
      have hf := List.mem_filter.mp hd2
      have hst : d2.status = "REOPENED" := by
        have h2 := hf.2
        simpa using h2
      rw [huniq d2 hf.1 hid] at hst
      rw [hopen] at hst
      exact absurd hst (by decide)

/-- Witness for C3: `sampleDefect` has current status RESOLVED, yet its
single REOPENED status-change event puts its id in the reopened set. -/
theorem reopen_union_semantics_witness :
    sampleDefect.id ∈ reopened_defects [sampleDefect] [sampleReopenEvent] :=
  (reopen_union_semantics [sampleDefect] [sampleReopenEvent] sampleDefect
      (by simp)).1
    ⟨sampleReopenEvent, by simp, by decide⟩

/-- Every member of `fix_times` is strictly positive. -/
lemma mem_fix_times_pos (defects : List Defect)
    (audit_events : List AuditEvent) (x : ℚ)
    (hx : x ∈ fix_times defects audit_events) : 0 < x := by
  rcases List.mem_filterMap.mp hx with ⟨d, _, hd⟩
  unfold fixContribution at hd
  rcases h : resolved_at audit_events d with _ | r
  · rw [h] at hd
    simp at hd
  · rw [h] at hd
    dsimp only at hd
    split at hd
    · rename_i hpos
      cases hd
      exact hpos
    · cases hd

/-- Claim C4: mean time-to-fix is non-negative; a defect whose resolution
time is at or before its creation time contributes nothing; and if no
defect qualifies the result is exactly `0.0`. -/
theorem mean_time_to_fix_nonneg (defects : List Defect)
    (audit_events : List AuditEvent) :
    0 ≤ calculate_mean_time_to_fix defects audit_events ∧
    (∀ d r, resolved_at audit_events d = some r → r ≤ d.createdAt →
      fixContribution audit_events d = none) ∧
    (fix_times defects audit_events = [] →
      calculate_mean_time_to_fix defects audit_events = 0) := by
  refine ⟨?_, ?_, ?_⟩
  · unfold calculate_mean_time_to_fix
    split
    · exact le_refl 0
    · apply div_nonneg
      · apply List.sum_nonneg
        intro x hx
        exact le_of_lt (mem_fix_times_pos defects audit_events x hx)
      · exact Nat.cast_nonneg _
  · intro d r hres hle
    unfold fixContribution
    rw [hres]
    dsimp only
    rw [if_neg]
    apply not_lt.mpr
    have hsub : ((r : ℚ) - (d.createdAt : ℚ)) ≤ 0 := by
      apply sub_nonpos.mpr
      exact_mod_cast hle
    apply div_nonpos_iff.mpr
    right
    exact ⟨hsub, by norm_num⟩
  · intro h
    simp [calculate_mean_time_to_fix, h]

/-- Witness for C4: the clock-skewed defect, resolved (by fallback) at
time 0 but created at time 7200, contributes nothing. -/
theorem mean_time_to_fix_nonneg_witness :
    fixContribution [] skewedDefect = none :=
  (mean_time_to_fix_nonneg [skewedDefect] []).2.1 skewedDefect 0 (by decide)
    (by decide)

/-- The Boolean loop test of the resolution search, in propositional
form. -/
lemma isResolutionEvent_iff (defectId : String) (e : AuditEvent) :
    isResolutionEvent defectId e = true ↔
      (e.defectId = defectId ∧ e.type = "STATUS_CHANGE" ∧
        (e.newStatus = some "RESOLVED" ∨ e.newStatus = some "CLOSED")) := by
  simp [isResolutionEvent, and_assoc]

/-- A first-match search over a list returns the marked element when
nothing before it matches. -/
lemma find_first_match (p : AuditEvent → Bool) (pre post : List AuditEvent)
    (e : AuditEvent) (hpre : ∀ x ∈ pre, p x = false) (he : p e = true) :
    (pre ++ e :: post).find? p = some e := by
  induction pre with
  | nil =>
      simp only [List.nil_append]
      exact List.find?_cons_of_pos _ he
  | cons a l ih =>
      have ha := hpre a (List.mem_cons_self a l)
      rw [List.cons_append, List.find?_cons_of_neg _ (by simp [ha])]
      exact ih fun x hx => hpre x (List.mem_cons_of_mem a hx)

/-- Claim C5: the resolution time of a defect is the `createdAt` of the
first event, in the order of the event list, that is a STATUS_CHANGE for
this defect to RESOLVED or CLOSED; with no such event, a current status of
RESOLVED or CLOSED makes `updatedAt` the resolution time; with neither, the
defect contributes nothing to the mean. -/
theorem resolution_time_selection (audit_events : List AuditEvent)
    (d : Defect) :
    (∀ pre e post, audit_events = pre ++ e :: post →
      e.defectId = d.id → e.type = "STATUS_CHANGE" →
      (e.newStatus = some "RESOLVED" ∨ e.newStatus = some "CLOSED") →
      (∀ x ∈ pre, ¬(x.defectId = d.id ∧ x.type = "STATUS_CHANGE" ∧
        (x.newStatus = some "RESOLVED" ∨ x.newStatus = some "CLOSED"))) →
      resolved_at audit_events d = some e.createdAt) ∧
    ((∀ x ∈ audit_events, ¬(x.defectId = d.id ∧ x.type = "STATUS_CHANGE" ∧
        (x.newStatus = some "RESOLVED" ∨ x.newStatus = some "CLOSED"))) →
      (d.status = "RESOLVED" ∨ d.status = "CLOSED") →
      resolved_at audit_events d = some d.updatedAt) ∧
    ((∀ x ∈ audit_events, ¬(x.defectId = d.id ∧ x.type = "STATUS_CHANGE" ∧
        (x.newStatus = some "RESOLVED" ∨ x.newStatus = some "CLOSED"))) →
      ¬(d.status = "RESOLVED" ∨ d.status = "CLOSED") →
      fixContribution audit_events d = none) := by
  refine ⟨?_, ?_, ?_⟩
  · intro pre e post heq hid hty hst hpre
    unfold resolved_at
    rw [heq, find_first_match (isResolutionEvent d.id) pre post e
      (fun x hx => Bool.eq_false_iff.mpr fun h =>
        hpre x hx ((isResolutionEvent_iff d.id x).mp h))
      ((isResolutionEvent_iff d.id e).mpr ⟨hid, hty, hst⟩)]
  · intro hall hstatus
    have hnone : audit_events.find? (isResolutionEvent d.id) = none :=
      List.find?_eq_none.mpr fun x hx hpx =>
        hall x hx ((isResolutionEvent_iff d.id x).mp hpx)
    unfold resolved_at
    rw [hnone]
    exact if_pos hstatus
  · intro hall hstatus
    have hnone : audit_events.find? (isResolutionEvent d.id) = none :=
      List.find?_eq_none.mpr fun x hx hpx =>
        hall x hx ((isResolutionEvent_iff d.id x).mp hpx)
    have hres : resolved_at audit_events d = none := by
      unfold resolved_at
      rw [hnone]
      exact if_neg hstatus
    unfold fixContribution
    rw [hres]

/-- Witness for C5: with a non-matching event in front, the resolution
time of `sampleDefect` is the timestamp of its resolution event. -/
theorem resolution_time_selection_witness :
    resolved_at [sampleReopenEvent, sampleResolutionEvent] sampleDefect =
      some sampleResolutionEvent.createdAt :=
  (resolution_time_selection [sampleReopenEvent, sampleResolutionEvent]
      sampleDefect).1
    [sampleReopenEvent] sampleResolutionEvent [] rfl (by decide) (by decide)
    (by decide) (by decide)

/-- The counts of a frequency table sum to the length of the column. -/
lemma value_counts_sum (l : List String) :
    ((value_counts l).map Prod.snd).sum = l.length := by
  have h : (value_counts l).map Prod.snd = l.dedup.map fun x => l.count x := by
    simp [value_counts, List.map_map, Function.comp]
  rw [h, List.sum_map_count_dedup_eq_length]

/-- Claim C6: the status-distribution counts sum to the number of defects,
the priority-distribution counts likewise, and the empty defect set yields
three empty tables. -/
theorem distribution_counts_sum (defects : List Defect) :
    (((calculate_distributions defects).1.map Prod.snd).sum =
        defects.length ∧
      ((calculate_distributions defects).2.1.map Prod.snd).sum =
        defects.length) ∧
    calculate_distributions [] = ([], [], []) := by
  constructor
  · rcases eq_or_ne defects [] with rfl | hne
    · simp [calculate_distributions]
    · simp only [calculate_distributions, if_neg hne]
      exact ⟨by rw [value_counts_sum]; exact List.length_map _ _,
        by rw [value_counts_sum]; exact List.length_map _ _⟩
  · simp [calculate_distributions]

/-- The two early guards of `_cluster_descriptions`: fewer defects than the
target cluster count, or an all-blank corpus, short-circuit to the empty
result before any vectorization. -/
lemma cluster_descriptions_guard (B : MLBackend) (defects : List Defect)
    (h : defects.length < 5 ∨ ∀ s ∈ documents defects, isBlank s = true) :
    cluster_descriptions B defects 5 = .ok emptyClustering := by
  unfold cluster_descriptions
  dsimp only
  by_cases hlen : defects = [] ∨ defects.length < 5
  · rw [if_pos hlen]
  · rw [if_neg hlen]
    have hblank : ((documents defects).all fun d => isBlank d) = true := by
      rcases h with h | h
      · exact absurd (Or.inr h) hlen
      · exact List.all_eq_true.mpr h
    rw [if_pos (Or.inr hblank)]

/-- Claim C7: with fewer defects than the minimum target cluster count
(default 5), or with a corpus of all-blank documents,
`_cluster_descriptions` returns exactly the empty clustering result. -/
theorem clustering_degenerate_guard (B : MLBackend) (defects : List Defect)
    (h : defects.length < 5 ∨ ∀ s ∈ documents defects, isBlank s = true) :
    cluster_descriptions B defects 5 = .ok emptyClustering :=
  cluster_descriptions_guard B defects h

/-- Witness for C7: three defects are fewer than the default five target
clusters, so clustering degrades to the empty result. -/
theorem clustering_degenerate_guard_witness :
    cluster_descriptions plainBackend [sampleDefect, skewedDefect,
      stopwordDefect] 5 = .ok emptyClustering :=
  clustering_degenerate_guard plainBackend _ (Or.inl (by decide))

/-- Shape of every successful clustering outcome under the scikit-learn
row-count guarantee (`fit_transform` yields one matrix row per document):
either the empty result from one of the guards, or a full result with
exactly five clusters. -/
lemma cluster_descriptions_ok_shape (B : MLBackend) (defects : List Defect)
    (r : ClusteringResult)
    (hv1 : ∀ docs v, B.vec1 docs = .ok v →
      v.tfidf_matrix.length = docs.length)
    (hv2 : ∀ docs v, B.vec2 docs = .ok v →
      v.tfidf_matrix.length = docs.length)
    (h : cluster_descriptions B defects 5 = .ok r) :
    r = emptyClustering ∨ (r.n_clusters = 5 ∧ r.clusters.length = 5) := by
  unfold cluster_descriptions at h
  dsimp only at h
  split at h
  · exact Or.inl (Except.ok.inj h).symm
  · rename_i hguard1
    split at h
    · exact Or.inl (Except.ok.inj h).symm
    · split at h
      · exact absurd h (by simp)
      · rename_i v hfit
        have hlen : v.tfidf_matrix.length = defects.length := by
          have hdocs : (documents defects).length = defects.length :=
            List.length_map _ _
          rcases h1 : B.vec1 (documents defects) with e1 | v1
          · rw [h1] at hfit
            exact hdocs ▸ hv2 _ _ hfit
          · rw [h1] at hfit
            cases hfit
            exact hdocs ▸ hv1 _ _ h1
        have h5 : 5 ≤ defects.length := by
          rcases Nat.lt_or_ge defects.length 5 with hlt | hge
          · exact absurd (Or.inr hlt) hguard1
          · exact hge
        have hmin : min 5 (min defects.length v.tfidf_matrix.length) = 5 := by
          rw [hlen, Nat.min_self]
          exact Nat.min_eq_left h5
        rw [hmin] at h
        split at h
        · rename_i hlt
          exact absurd hlt (by norm_num)
        · split at h
          · exact absurd h (by simp)
          · split at h
            · exact absurd h (by simp)
            · right
              cases h
              exact ⟨rfl, by simp⟩

/-- Claim C10: under the default requested cluster count of 5 and the
scikit-learn guarantee of one matrix row per document, every non-empty
clustering result has exactly 5 clusters, every successful result has 0 or
5 clusters, and whenever at least 5 defects survive to vectorization the
computed actual cluster count is exactly 5 (so the fewer-than-2-clusters
fallback branch cannot fire). -/
theorem cluster_count_default (B : MLBackend) (defects : List Defect)
    (hv1 : ∀ docs v, B.vec1 docs = .ok v →
      v.tfidf_matrix.length = docs.length)
    (hv2 : ∀ docs v, B.vec2 docs = .ok v →
      v.tfidf_matrix.length = docs.length) :
    (∀ r, cluster_descriptions B defects 5 = .ok r → r.clusters ≠ [] →
      r.n_clusters = 5) ∧
    (∀ r, cluster_descriptions B defects 5 = .ok r →
      r.n_clusters = 0 ∨ r.n_clusters = 5) ∧
    (∀ v, 5 ≤ defects.length →
      (B.vec1 (documents defects) = .ok v ∨
        B.vec2 (documents defects) = .ok v) →
      min 5 (min defects.length v.tfidf_matrix.length) = 5) := by
  refine ⟨?_, ?_, ?_⟩
  · intro r hok hne
    rcases cluster_descriptions_ok_shape B defects r hv1 hv2 hok with rfl | hr
    · exact absurd rfl hne
    · exact hr.1
  · intro r hok
    rcases cluster_descriptions_ok_shape B defects r hv1 hv2 hok with rfl | hr
    · exact Or.inl rfl
    · exact Or.inr hr.1
  · intro v h5 hvec
    have hlen : v.tfidf_matrix.length = defects.length := by
      have hdocs : (documents defects).length = defects.length :=
        List.length_map _ _
      rcases hvec with hvec | hvec
      · exact hdocs ▸ hv1 _ _ hvec
      · exact hdocs ▸ hv2 _ _ hvec
    rw [hlen, Nat.min_self]
    exact Nat.min_eq_left h5

/-- Witness for C10: the plain backend on five sample defects, whose
TF-IDF matrix has one row per document, yields an actual cluster count of
exactly 5. -/
theorem cluster_count_default_witness :
    min 5 (min fiveSampleDefects.length sampleCorpus.tfidf_matrix.length) =
      5 :=
  (cluster_count_default plainBackend fiveSampleDefects
      (by intro docs v h; cases h; simp [plainBackend])
      (by intro docs v h; simp [plainBackend] at h)).2.2
    sampleCorpus (by decide) (Or.inl rfl)

/-- Counterexample to claim C1 as stated: on a corpus of five defects whose
words are all English stop-words — non-blank documents, so the blank guard
does not fire — both TF-IDF vectorization attempts raise (scikit-learn's
empty-vocabulary ValueError, which the stop-word filter of both
configurations produces), and `_cluster_descriptions` propagates the second
exception instead of returning the empty clustering result. -/
theorem cluster_descriptions_raises :
    cluster_descriptions emptyVocabularyBackend stopwordCorpusDefects 5 =
      .error "empty vocabulary" := by
  rfl

/-- Claim C1 (amended): `_cluster_descriptions` returns the empty
clustering result on every degenerate input its guards catch, and a first
vectorization failure is recovered by the retry; but the function is not
exception-free: when both vectorization attempts fail the second failure
propagates, and an exception raised by a later scikit-learn call —
`silhouette_score` when the distinct-label count equals the sample count, a
case the more-than-one-label guard does not exclude — propagates as
well. -/
theorem cluster_descriptions_error_policy (B : MLBackend)
    (defects : List Defect) :
    (∀ (_h : defects.length < 5 ∨
        ∀ s ∈ documents defects, isBlank s = true),
      cluster_descriptions B defects 5 = .ok emptyClustering) ∧
    (∀ e1 e, 5 ≤ defects.length →
      (∃ s ∈ documents defects, isBlank s = false) →
      B.vec1 (documents defects) = .error e1 →
      B.vec2 (documents defects) = .error e →
      cluster_descriptions B defects 5 = .error e) ∧
    (∀ v labels centers e, 5 ≤ defects.length →
      (∃ s ∈ documents defects, isBlank s = false) →
      B.vec1 (documents defects) = .ok v →
      v.tfidf_matrix.length = (documents defects).length →
      B.kmeansFit 5 v.tfidf_matrix = .ok (labels, centers) →
      labels.dedup.length > 1 →
      B.silhouette v.tfidf_matrix labels = .error e →
      cluster_descriptions B defects 5 = .error e) := by
  have hguards : ∀ (h5 : 5 ≤ defects.length)
      (hbl : ∃ s ∈ documents defects, isBlank s = false),
      ¬(defects = [] ∨ defects.length < 5) ∧
      ¬(documents defects = [] ∨
        ((documents defects).all fun d => isBlank d) = true) := by
    intro h5 ⟨s, hs, hsne⟩
    constructor
    · rintro (hnil | hlt)
      · rw [hnil] at h5
        exact absurd h5 (by decide)
      · exact absurd hlt (Nat.not_lt.mpr h5)
    · rintro (hnil | hall)
      · rw [hnil] at hs
        exact absurd hs (List.not_mem_nil s)
      · rw [List.all_eq_true.mp hall s hs] at hsne
        cases hsne
  refine ⟨cluster_descriptions_guard B defects, ?_, ?_⟩
  · intro e1 e h5 hbl h1 h2
    obtain ⟨hg1, hg2⟩ := hguards h5 hbl
    unfold cluster_descriptions
    dsimp only
    rw [if_neg hg1, if_neg hg2, h1]
    dsimp only
    rw [h2]
  · intro v labels centers e h5 hbl h1 hrows hkm hlab hsil
    obtain ⟨hg1, hg2⟩ := hguards h5 hbl
    have hmin : min 5 (min defects.length v.tfidf_matrix.length) = 5 := by
      rw [hrows]
      unfold documents
      rw [List.length_map, Nat.min_self]
      exact Nat.min_eq_left h5
    unfold cluster_descriptions
    dsimp only
    rw [if_neg hg1, if_neg hg2, h1]
    dsimp only
    rw [hmin, if_neg (by norm_num), hkm]
    dsimp only
    rw [if_pos hlab, hsil]

/-- Witness for C1 (amended): five sample defects vectorize into five rows,
K-Means makes five singleton clusters whose five distinct labels pass the
more-than-one-label test, and the silhouette failure propagates. -/
theorem cluster_descriptions_error_policy_witness :
    cluster_descriptions silhouetteFailBackend fiveSampleDefects 5 =
      .error "Number of labels is 5" :=
  (cluster_descriptions_error_policy silhouetteFailBackend
      fiveSampleDefects).2.2 sampleCorpus [0, 1, 2, 3, 4]
    [[1], [1], [1], [1], [1]] "Number of labels is 5" (by decide)
    ⟨"database timeout query hangs", by decide, by decide⟩ rfl (by decide)
    rfl (by decide) rfl

/-- A per-defect audit fetch that fails on one id behaves exactly as one
that returns no events for that id. -/
lemma fetch_audit_events_patch
    (fetchDefect : String → Except String (List AuditEvent))
    (defect_ids : List String) (badId : String) (msg : String)
    (hbad : fetchDefect badId = .error msg) :
    fetch_audit_events fetchDefect defect_ids =
      fetch_audit_events
        (fun i => if i = badId then .ok [] else fetchDefect i) defect_ids := by
  unfold fetch_audit_events
  congr 1
  funext i
  by_cases hi : i = badId
  · subst hi
    rw [hbad]
    simp
  · simp [hi]

/-- Claim C8: a failure of the primary defect-list fetch propagates out of
`generate`; a failure fetching one defect's audit events is swallowed — the
whole event collection, and the whole generated report, are exactly those
obtained with that defect contributing no events — and with the defect list
in hand the pipeline still produces a report whenever the clustering stage
returns one. -/
theorem acquisition_failure_policy :
    (∀ (e : String) fetchDefect (B : MLBackend),
      generate (.error e) fetchDefect B = .error e) ∧
    (∀ fetchDefect defect_ids badId msg, fetchDefect badId = .error msg →
      fetch_audit_events fetchDefect defect_ids =
        fetch_audit_events
          (fun i => if i = badId then .ok [] else fetchDefect i)
          defect_ids) ∧
    (∀ defects fetchDefect badId msg (B : MLBackend),
      fetchDefect badId = .error msg →
      generate (.ok defects) fetchDefect B =
        generate (.ok defects)
          (fun i => if i = badId then .ok [] else fetchDefect i) B) ∧
    (∀ defects fetchDefect (B : MLBackend) c,
      cluster_descriptions B defects 5 = .ok c →
      ∃ r, generate (.ok defects) fetchDefect B = .ok r) := by
  refine ⟨?_, ?_, ?_, ?_⟩
  · intro e fetchDefect B
    rfl
  · intro fetchDefect defect_ids badId msg hbad
    exact fetch_audit_events_patch fetchDefect defect_ids badId msg hbad
  · intro defects fetchDefect badId msg B hbad
    unfold generate
    dsimp only
    by_cases hd : defects = []
    · rw [if_pos hd, if_pos hd]
    · rw [if_neg hd, if_neg hd,
        fetch_audit_events_patch fetchDefect _ badId msg hbad]
  · intro defects fetchDefect B c hclus
    unfold generate
    dsimp only
    by_cases hd : defects = []
    · rw [if_pos hd]
      exact ⟨_, rfl⟩
    · rw [if_neg hd, hclus]
      exact ⟨_, rfl⟩

/-- Witness for C8: with a single defect whose audit fetch fails, the
report equals the one computed with no events for that defect. -/
theorem acquisition_failure_policy_witness :
    generate (.ok [sampleDefect]) (fun _ => .error "down") plainBackend =
      generate (.ok [sampleDefect])
        (fun i => if i = "s1" then .ok [] else .error "down") plainBackend :=
  acquisition_failure_policy.2.2.1 [sampleDefect] (fun _ => .error "down")
    "s1" "down" plainBackend rfl

/-- Claim C9: `store_insights` swallows every storage failure; the
`/generate-insights` handler's outcome is independent of the storage
outcome, and whenever `generate` produces a report the handler returns that
very report, storage failure or not. -/
theorem storage_failure_swallowed :
    (∀ post, store_insights post = .ok ()) ∧
    (∀ fetchDefectsResult fetchDefect (B : MLBackend) post1 post2,
      generate_insights fetchDefectsResult fetchDefect B post1 =
        generate_insights fetchDefectsResult fetchDefect B post2) ∧
    (∀ fetchDefectsResult fetchDefect (B : MLBackend) post r,
      generate fetchDefectsResult fetchDefect B = .ok r →
      generate_insights fetchDefectsResult fetchDefect B post = .ok r) := by
  refine ⟨?_, ?_, ?_⟩
  · intro post
    cases post <;> rfl
  · intro f a B p1 p2
    unfold generate_insights
    cases h : generate f a B
    · rfl
    · cases p1 <;> cases p2 <;> rfl
  · intro f a B post r h
    unfold generate_insights
    rw [h]
    cases post <;> rfl

/-- Witness for C9: with an unreachable storage endpoint, the handler still
returns the computed (here: empty-input) report. -/
theorem storage_failure_swallowed_witness :
    generate_insights (.ok []) (fun _ => .ok []) plainBackend
        (.error "storage down") =
      .ok { reopen_rate := 0, mean_time_to_fix := 0,
            distributions := ([], [], []), clustering := emptyClustering } :=
  storage_failure_swallowed.2.2 (.ok []) (fun _ => .ok []) plainBackend
    (.error "storage down") _ rfl

end InsightsGenerator
